import Mathlib

/-!
# Verification of the diabetes-assistant dosing core

Shallow embedding of the time-segmented coefficient model, the dose
calculator, and the adaptive coefficient tuner of the diabetes-assistant
repository.  Go `float64` values are modelled as rationals (`ℚ`), Go
slices as lists, and the `time.Time` of a glucose reading is abstracted
to the only field the core reads from it, its hour of day.
-/

/-! ## Go library helpers -/

/-- `strings.Split(s, sep)[0]`: the longest prefix of `s` not containing
`sep` (Go's `Split` never returns an empty slice, and its first element
is exactly this prefix). -/
def goSplitFirst (s : String) (sep : Char) : String :=
  String.mk (s.toList.takeWhile (fun c => c ≠ sep))

/-- Digit-string accumulation used by `goAtoi`. -/
def digitsToNat (cs : List Char) : Nat :=
  cs.foldl (fun a c => a * 10 + (c.toNat - 48)) 0

/-- `strconv.Atoi` with the error discarded, as every call site of the
repository does (`startHour, _ := strconv.Atoi(...)`):
an optional sign followed by digits parses to its value, anything else
yields `0` (Go returns `0` together with the ignored syntax error). -/
def goAtoi (s : String) : Int :=
  match s.toList with
  | [] => 0
  | '+' :: rest =>
      if rest ≠ [] ∧ rest.all Char.isDigit then (digitsToNat rest : Int) else 0
  | '-' :: rest =>
      if rest ≠ [] ∧ rest.all Char.isDigit then -(digitsToNat rest : Int) else 0
  | cs =>
      if cs.all Char.isDigit then (digitsToNat cs : Int) else 0

/-- Go's `int(f)` conversion on a `float64`: truncation toward zero. -/
def goInt (q : ℚ) : Int :=
  q.num.tdiv (q.den : Int)

/-- `strconv.Atoi(strings.Split(startTime, ":")[0])` — the hour encoded in
an `"HH:MM"` start-time string, as every call site of the repository
extracts it. -/
def parseStartHour (s : String) : Int :=
  goAtoi (goSplitFirst s ':')

/-! ## Data model (internal/models) -/

/-- `models.BloodSugarReading`: the core reads only `Value` and
`Timestamp.Hour()`, so a reading is modelled by its value (mmol/L) and
its hour of day. -/
structure BloodSugarReading where
  value : ℚ
  hour : Nat
deriving DecidableEq

/-- `models.BaseInsulinCoefficients`: legacy four-quadrant dosing
coefficients. -/
structure BaseInsulinCoefficients where
  morning : ℚ
  afternoon : ℚ
  evening : ℚ
  night : ℚ
deriving DecidableEq

/-- `models.InsulinPeriod`. -/
structure InsulinPeriod where
  startTime : String
  coefficient : ℚ
  hours : ℚ
deriving DecidableEq

/-- `models.SensitivityPeriod`. -/
structure SensitivityPeriod where
  startTime : String
  sensitivity : ℚ
  hours : ℚ
deriving DecidableEq

/-- `models.CarbRatioPeriod`. -/
structure CarbRatioPeriod where
  startTime : String
  ratio : ℚ
  hours : ℚ
deriving DecidableEq

/-- `models.Settings`, restricted to the fields the dosing core reads
(identifier and timestamp fields are irrelevant to the claims). -/
structure Settings where
  targetMin : ℚ
  targetMax : ℚ
  iobDuration : ℚ
  insulinPeriods : List InsulinPeriod
  sensitivityPeriods : List SensitivityPeriod
  carbRatioPeriods : List CarbRatioPeriod
deriving DecidableEq

/-! ## Dose calculator (services/insulin, part_008) -/

/-- `insulin.CalculateMealInsulin`. -/
def CalculateMealInsulin (carbGrams carbRatio timeCoefficient : ℚ) : ℚ :=
  carbGrams / carbRatio * timeCoefficient

/-- `insulin.CalculateCorrectionInsulin`: `(currentBG - targetBG) /
sensitivityFactor`, with no clamping. -/
def CalculateCorrectionInsulin (currentBG targetBG sensitivityFactor : ℚ) : ℚ :=
  (currentBG - targetBG) / sensitivityFactor

/-- `insulin.CalculateTotalInsulin`: `math.Max(0, meal + correction - IOB)`. -/
def CalculateTotalInsulin (mealInsulin correctionInsulin insulinOnBoard : ℚ) : ℚ :=
  max 0 (mealInsulin + correctionInsulin - insulinOnBoard)

/-- `insulin.calculateAverage`: `0` on an empty slice, else sum divided by
length. -/
def calculateAverage (values : List ℚ) : ℚ :=
  if values.length = 0 then 0 else values.sum / (values.length : ℚ)

/-- `insulin.adjustCoefficient`: no change inside the `|avg - target| < 1`
dead zone, otherwise scale by `target/avg` clamped to `[0.8, 1.2]`. -/
def adjustCoefficient (avgBG targetBG currentCoefficient : ℚ) : ℚ :=
  if |avgBG - targetBG| < 1 then currentCoefficient
  else currentCoefficient * max (8/10) (min (12/10) (targetBG / avgBG))

/-- Hour test of the morning branch of `AdjustInsulinCoefficients`. -/
def isMorningHour (h : Nat) : Bool := 6 ≤ h ∧ h < 12

/-- Hour test of the afternoon branch of `AdjustInsulinCoefficients`. -/
def isAfternoonHour (h : Nat) : Bool := 12 ≤ h ∧ h < 18

/-- Hour test of the evening branch of `AdjustInsulinCoefficients`. -/
def isEveningHour (h : Nat) : Bool := 18 ≤ h ∧ h < 22

/-- Hour test of the `else` (night) branch of `AdjustInsulinCoefficients`. -/
def isNightHour (h : Nat) : Bool :=
  ¬(isMorningHour h ∨ isAfternoonHour h ∨ isEveningHour h)

/-- The values appended to one of the four quadrant slices by the
bucketing loop of `AdjustInsulinCoefficients`, in iteration order. -/
def readingsInBucket (inBucket : Nat → Bool) (readings : List BloodSugarReading) : List ℚ :=
  (readings.filter (fun r => inBucket r.hour)).map (fun r => r.value)

/-- `insulin.AdjustInsulinCoefficients`: gate on fewer than 5 readings,
bucket by hour of day, and adjust each quadrant with at least 3 readings
from that bucket's average; each branch reads the original
`currentCoefficients` field, exactly as the Go code does. -/
def AdjustInsulinCoefficients (readings : List BloodSugarReading) (targetBG : ℚ)
    (currentCoefficients : BaseInsulinCoefficients) : BaseInsulinCoefficients :=
  if readings.length < 5 then currentCoefficients
  else
    let morningReadings := readingsInBucket isMorningHour readings
    let afternoonReadings := readingsInBucket isAfternoonHour readings
    let eveningReadings := readingsInBucket isEveningHour readings
    let nightReadings := readingsInBucket isNightHour readings
    let c1 :=
      if 3 ≤ morningReadings.length then
        { currentCoefficients with
            morning := adjustCoefficient (calculateAverage morningReadings) targetBG
              currentCoefficients.morning }
      else currentCoefficients
    let c2 :=
      if 3 ≤ afternoonReadings.length then
        { c1 with
            afternoon := adjustCoefficient (calculateAverage afternoonReadings) targetBG
              currentCoefficients.afternoon }
      else c1
    let c3 :=
      if 3 ≤ eveningReadings.length then
        { c2 with
            evening := adjustCoefficient (calculateAverage eveningReadings) targetBG
              currentCoefficients.evening }
      else c2
    if 3 ≤ nightReadings.length then
      { c3 with
          night := adjustCoefficient (calculateAverage nightReadings) targetBG
            currentCoefficients.night }
    else c3

/-- `insulin.GetTimeBasedCoefficient` (quadrant lookup by hour). -/
def GetTimeBasedCoefficient (hour : Nat) (coefficients : BaseInsulinCoefficients) : ℚ :=
  if 6 ≤ hour ∧ hour < 12 then coefficients.morning
  else if 12 ≤ hour ∧ hour < 18 then coefficients.afternoon
  else if 18 ≤ hour ∧ hour < 22 then coefficients.evening
  else coefficients.night

/-! ## Legacy/period conversions (internal/models/base_insulin_coefficients.go) -/

/-- `BaseInsulinCoefficients.ConvertToInsulinPeriods`. -/
def ConvertToInsulinPeriods (b : BaseInsulinCoefficients) : List InsulinPeriod :=
  [ { startTime := "00:00", coefficient := b.night, hours := 6 },
    { startTime := "06:00", coefficient := b.morning, hours := 6 },
    { startTime := "12:00", coefficient := b.afternoon, hours := 6 },
    { startTime := "18:00", coefficient := b.evening, hours := 6 } ]

/-- `models.InsulinPeriodsToBaseCoefficients`: start from all-1.0
defaults, then for each period whose parsed hour range fits inside a
quadrant, overwrite that quadrant's coefficient. -/
def InsulinPeriodsToBaseCoefficients (periods : List InsulinPeriod) : BaseInsulinCoefficients :=
  periods.foldl
    (fun result period =>
      let startHour := parseStartHour period.startTime
      let endHour := startHour + goInt period.hours
      if 0 ≤ startHour ∧ startHour < 6 ∧ endHour ≤ 6 then
        { result with night := period.coefficient }
      else if 6 ≤ startHour ∧ startHour < 12 ∧ endHour ≤ 12 then
        { result with morning := period.coefficient }
      else if 12 ≤ startHour ∧ startHour < 18 ∧ endHour ≤ 18 then
        { result with afternoon := period.coefficient }
      else if 18 ≤ startHour ∧ startHour < 24 ∧ endHour ≤ 24 then
        { result with evening := period.coefficient }
      else result)
    { morning := 1, afternoon := 1, evening := 1, night := 1 }

/-! ## Request handlers (internal/handlers/api_handlers.go) -/

/-- `handlers.areInsulinPeriodsEqual`: same length and field-by-field
equality at every index. -/
def areInsulinPeriodsEqual (a b : List InsulinPeriod) : Bool :=
  decide (a.length = b.length ∧
    ∀ p ∈ a.zip b,
      p.1.startTime = p.2.startTime ∧ p.1.hours = p.2.hours ∧
        p.1.coefficient = p.2.coefficient)

/-- The coefficient-adjustment step of `handlers.SaveBloodSugar`
(api_handlers.go lines 205–230): when at least 5 recent readings exist and
`TargetMin > 0`, convert the stored periods to quadrant form, run the
tuner, convert back, and persist (with the `coefficientsAdjusted` flag)
only if the result differs from the stored periods.  Returns the stored
period list after the request together with the reported flag. -/
def saveBloodSugarAdjust (recentReadings : List BloodSugarReading) (settings : Settings) :
    List InsulinPeriod × Bool :=
  if 5 ≤ recentReadings.length ∧ 0 < settings.targetMin then
    let legacyCoefficients := InsulinPeriodsToBaseCoefficients settings.insulinPeriods
    let adjustedLegacyCoefficients :=
      AdjustInsulinCoefficients recentReadings settings.targetMin legacyCoefficients
    let adjustedPeriods := ConvertToInsulinPeriods adjustedLegacyCoefficients
    if areInsulinPeriodsEqual settings.insulinPeriods adjustedPeriods then
      (settings.insulinPeriods, false)
    else
      (adjustedPeriods, true)
  else (settings.insulinPeriods, false)

/-- The time-based coefficient loop of `handlers.AnalyzeFood`
(api_handlers.go lines 446–459): scan the insulin periods in order,
returning the coefficient of the first period with
`hour >= startHour && hour < startHour + int(period.Hours)`; the initial
value `1.0` survives when no period matches (including the nil/empty
list). -/
def analyzeFoodPeriodCoefficient : List InsulinPeriod → Int → ℚ
  | [], _ => 1
  | p :: rest, hour =>
      let startHour := parseStartHour p.startTime
      if startHour ≤ hour ∧ hour < startHour + goInt p.hours then p.coefficient
      else analyzeFoodPeriodCoefficient rest hour

/-- The correction-insulin computation of `handlers.AnalyzeFood`
(api_handlers.go lines 467–473): `correctionInsulin` starts at `0.0` and
becomes `diff / SensitivityPeriods[0].Sensitivity` only when a last
reading exists, `TargetMin > 0`, the first sensitivity is positive, and
`diff > 0`.  Indexing `SensitivityPeriods[0]` on an empty slice is a Go
panic, modelled as `none`. -/
def analyzeFoodCorrection (lastReading : Option ℚ) (settings : Settings) : Option ℚ :=
  match lastReading with
  | none => some 0
  | some v =>
      if 0 < settings.targetMin then
        match settings.sensitivityPeriods with
        | [] => none
        | s0 :: _ =>
            if 0 < s0.sensitivity then
              if 0 < v - settings.targetMin then
                some ((v - settings.targetMin) / s0.sensitivity)
              else some 0
            else some 0
      else some 0

/-- The dose fields computed by one `AnalyzeFood` request. -/
structure DoseResult where
  mealInsulin : ℚ
  correctionInsulin : ℚ
  totalInsulin : ℚ
  periodCoefficient : ℚ
deriving DecidableEq

/-- The dose computation of `handlers.AnalyzeFood` (api_handlers.go lines
443–476): meal insulin from `CarbRatioPeriods[0].Ratio` (a panic — `none`
— on an empty slice), multiplied by the scanned period coefficient, plus
the correction; the response total is their unclamped sum. -/
def analyzeFoodDose (carbs : ℚ) (hour : Int) (settings : Settings)
    (lastReading : Option ℚ) : Option DoseResult :=
  match settings.carbRatioPeriods with
  | [] => none
  | r0 :: _ =>
      let periodCoefficient := analyzeFoodPeriodCoefficient settings.insulinPeriods hour
      let mealInsulin := carbs / r0.ratio * periodCoefficient
      match analyzeFoodCorrection lastReading settings with
      | none => none
      | some correctionInsulin =>
          some { mealInsulin := mealInsulin,
                 correctionInsulin := correctionInsulin,
                 totalInsulin := mealInsulin + correctionInsulin,
                 periodCoefficient := periodCoefficient }

/-! ## Period-set validator (web/app.js, `validatePeriods`) -/

/-- A client-side period row as read by `validatePeriods`: a start hour
and an end hour. -/
structure JsPeriod where
  startHour : ℚ
  endHour : ℚ
deriving DecidableEq

/-- `validatePeriods` of web/app.js (lines 403–438): accumulate
`endHour - startHour` over the rows, succeed exactly on a total of `24`,
and otherwise report the computed total.  Modelled as the returned
ok-flag together with the total the function displays. -/
def validatePeriods (periods : List JsPeriod) : Bool × ℚ :=
  let totalHours := periods.foldl (fun acc p => acc + (p.endHour - p.startHour)) 0
  (decide (totalHours = 24), totalHours)

/-- The match condition of the `AnalyzeFood` period scan:
`hour >= startHour && hour < startHour + int(period.Hours)`. -/
def periodMatchesHour (p : InsulinPeriod) (hour : Int) : Prop :=
  parseStartHour p.startTime ≤ hour ∧ hour < parseStartHour p.startTime + goInt p.hours

/-- Definition following the spec's words (refinement comparison):
TimeResolver applied to the carb-ratio PeriodSet — scan in order, first
period whose range contains the hour wins, default `1.0`. -/
def specResolveCarbRatio : List CarbRatioPeriod → Int → ℚ
  | [], _ => 1
  | p :: rest, hour =>
      if parseStartHour p.startTime ≤ hour ∧
          hour < parseStartHour p.startTime + goInt p.hours then p.ratio
      else specResolveCarbRatio rest hour

/-- Definition following the spec's words (refinement comparison):
TimeResolver applied to the sensitivity PeriodSet. -/
def specResolveSensitivity : List SensitivityPeriod → Int → ℚ
  | [], _ => 1
  | p :: rest, hour =>
      if parseStartHour p.startTime ≤ hour ∧
          hour < parseStartHour p.startTime + goInt p.hours then p.sensitivity
      else specResolveSensitivity rest hour

/-- Counterexample data for the hour-resolution claim: two periods in
every set, observed at hour 15. -/
def c2Settings : Settings :=
  ⟨5, 8, 4,
    [⟨"00:00", 1, 12⟩, ⟨"12:00", 3/2, 12⟩],
    [⟨"00:00", 2, 12⟩, ⟨"12:00", 4, 12⟩],
    [⟨"00:00", 10, 12⟩, ⟨"12:00", 20, 12⟩]⟩

/-- Counterexample data: three stored 8-hour periods (not aligned with
the fixed quadrants) and five on-target morning readings. -/
def c3Settings : Settings :=
  ⟨5, 8, 4,
    [⟨"00:00", 2, 8⟩, ⟨"08:00", 2, 8⟩, ⟨"16:00", 2, 8⟩],
    [⟨"00:00", 2, 24⟩], [⟨"00:00", 10, 24⟩]⟩

/-! ## Quadrant bookkeeping for the tuner proofs -/

/-- One of the four fixed day-quadrants of the tuner. -/
inductive Quadrant
  | morning
  | afternoon
  | evening
  | night
deriving DecidableEq

/-- The hour test of a quadrant's bucketing branch. -/
def quadrantHourPred : Quadrant → Nat → Bool
  | .morning => isMorningHour
  | .afternoon => isAfternoonHour
  | .evening => isEveningHour
  | .night => isNightHour

/-- The coefficient field a quadrant owns. -/
def quadrantCoeff : Quadrant → BaseInsulinCoefficients → ℚ
  | .morning => BaseInsulinCoefficients.morning
  | .afternoon => BaseInsulinCoefficients.afternoon
  | .evening => BaseInsulinCoefficients.evening
  | .night => BaseInsulinCoefficients.night

/-- The values the tuner buckets into a quadrant. -/
def quadrantValues (q : Quadrant) (readings : List BloodSugarReading) : List ℚ :=
  readingsInBucket (quadrantHourPred q) readings

/-! ## Evaluation lemmas for the string/number helpers -/

lemma parseStartHour_00 : parseStartHour "00:00" = 0 := by decide

lemma parseStartHour_06 : parseStartHour "06:00" = 6 := by decide

lemma parseStartHour_08 : parseStartHour "08:00" = 8 := by decide

lemma parseStartHour_12 : parseStartHour "12:00" = 12 := by decide

lemma parseStartHour_16 : parseStartHour "16:00" = 16 := by decide

lemma parseStartHour_18 : parseStartHour "18:00" = 18 := by decide

lemma goInt_6 : goInt 6 = 6 := rfl

lemma goInt_8 : goInt 8 = 8 := rfl

lemma goInt_12 : goInt 12 = 12 := rfl

lemma goInt_24 : goInt 24 = 24 := rfl

/-! ## Helper lemmas about the tuner -/

/-- Fewer than 5 readings short-circuit the tuner. -/
lemma adjust_of_length_lt_five {readings : List BloodSugarReading} (targetBG : ℚ)
    (c : BaseInsulinCoefficients) (h : readings.length < 5) :
    AdjustInsulinCoefficients readings targetBG c = c := by
  simp [AdjustInsulinCoefficients, h]

/-- With the length gate passed, each quadrant's output coefficient is the
per-bucket adjustment of that quadrant alone. -/
lemma adjust_quadrantCoeff (readings : List BloodSugarReading) (targetBG : ℚ)
    (c : BaseInsulinCoefficients) (h : ¬ readings.length < 5) (q : Quadrant) :
    quadrantCoeff q (AdjustInsulinCoefficients readings targetBG c) =
      if 3 ≤ (quadrantValues q readings).length then
        adjustCoefficient (calculateAverage (quadrantValues q readings)) targetBG
          (quadrantCoeff q c)
      else quadrantCoeff q c := by
  cases q <;>
    simp only [AdjustInsulinCoefficients, if_neg h, quadrantValues, quadrantHourPred,
      quadrantCoeff] <;>
    split_ifs <;> rfl

/-- Folding `+` over mapped values is the sum of the mapped list. -/
lemma foldl_add_map_sum {α : Type} (f : α → ℚ) (l : List α) (a : ℚ) :
    l.foldl (fun acc p => acc + f p) a = a + (l.map f).sum := by
  induction l generalizing a with
  | nil => simp
  | cons p rest ih => simp [ih, add_assoc]

/-- C4: for every `mealInsulin`, `correctionInsulin`, and
`insulinOnBoard` (of any signs) the total-insulin function returns
`max 0 (mealInsulin + correctionInsulin - insulinOnBoard)`; the result is
never negative, and raising the insulin-on-board can only lower the dose
but never below zero. -/
theorem calculateTotalInsulin_spec (m c i j : ℚ) (hij : i ≤ j) :
    CalculateTotalInsulin m c i = max 0 (m + c - i) ∧
      0 ≤ CalculateTotalInsulin m c i ∧
        CalculateTotalInsulin m c j ≤ CalculateTotalInsulin m c i := by
  refine ⟨rfl, le_max_left _ _, ?_⟩
  exact max_le_max le_rfl (by linarith)

/-- Witness for `calculateTotalInsulin_spec` at the spec's example
(`meal = 6`, `correction = 0`, `IOB = 2`, raised to `IOB = 3`). -/
theorem calculateTotalInsulin_spec_witness :
    CalculateTotalInsulin 6 0 2 = max 0 (6 + 0 - 2) ∧
      0 ≤ CalculateTotalInsulin 6 0 2 ∧
        CalculateTotalInsulin 6 0 3 ≤ CalculateTotalInsulin 6 0 2 :=
  calculateTotalInsulin_spec 6 0 2 3 (by norm_num)

/-- C7: a reading list with fewer than 5 elements leaves the coefficient
set unchanged for every target and every coefficient set; the function
is total (its result type `BaseInsulinCoefficients` has no failure
case), so no error is signalled. -/
theorem adjustInsulinCoefficients_insufficient_data
    (readings : List BloodSugarReading) (targetBG : ℚ) (c : BaseInsulinCoefficients)
    (h : readings.length < 5) :
    AdjustInsulinCoefficients readings targetBG c = c :=
  adjust_of_length_lt_five targetBG c h

/-- Witness for `adjustInsulinCoefficients_insufficient_data`: four
readings are a no-op. -/
theorem adjustInsulinCoefficients_insufficient_data_witness :
    AdjustInsulinCoefficients
        [⟨9, 7⟩, ⟨10, 8⟩, ⟨11, 13⟩, ⟨12, 20⟩] 6 ⟨1, 1, 1, 1⟩ = ⟨1, 1, 1, 1⟩ :=
  adjustInsulinCoefficients_insufficient_data _ 6 ⟨1, 1, 1, 1⟩ (by norm_num)

/-- C9: the validator accepts exactly the period collections whose
durations sum to exactly `24` (no epsilon), the total it reports is the
actual computed sum, and the empty collection (total `0`) is rejected. -/
theorem validatePeriods_spec (periods : List JsPeriod) :
    ((validatePeriods periods).1 = true ↔
        (periods.map (fun p => p.endHour - p.startHour)).sum = 24) ∧
      (validatePeriods periods).2 =
        (periods.map (fun p => p.endHour - p.startHour)).sum ∧
        validatePeriods [] = (false, 0) := by
  have htot : (validatePeriods periods).2 =
      (periods.map (fun p => p.endHour - p.startHour)).sum := by
    simp [validatePeriods, foldl_add_map_sum]
  refine ⟨?_, htot, ?_⟩
  · have : (validatePeriods periods).1 =
        decide ((periods.foldl (fun acc p => acc + (p.endHour - p.startHour)) 0 : ℚ) = 24) :=
      rfl
    rw [this, decide_eq_true_iff, foldl_add_map_sum, zero_add]
  · simp [validatePeriods]

/-- Witness for `validatePeriods_spec` at a concrete two-period set
summing to 24. -/
theorem validatePeriods_spec_witness :
    ((validatePeriods [⟨0, 12⟩, ⟨12, 24⟩]).1 = true ↔
        (([⟨0, 12⟩, ⟨12, 24⟩] : List JsPeriod).map
          (fun p => p.endHour - p.startHour)).sum = 24) ∧
      (validatePeriods [⟨0, 12⟩, ⟨12, 24⟩]).2 =
        (([⟨0, 12⟩, ⟨12, 24⟩] : List JsPeriod).map
          (fun p => p.endHour - p.startHour)).sum ∧
        validatePeriods [] = (false, 0) :=
  validatePeriods_spec [⟨0, 12⟩, ⟨12, 24⟩]

/-- C10: converting a legacy four-quadrant coefficient record to the
period-list representation and back is the identity. -/
theorem insulinPeriods_roundTrip (b : BaseInsulinCoefficients) :
    InsulinPeriodsToBaseCoefficients (ConvertToInsulinPeriods b) = b := by
  obtain ⟨m, a, e, n⟩ := b
  norm_num [InsulinPeriodsToBaseCoefficients, ConvertToInsulinPeriods,
    parseStartHour_00, parseStartHour_06, parseStartHour_12, parseStartHour_18, goInt_6]

/-- Two coefficient records with equal fields are equal. -/
lemma baseCoefficients_ext {x y : BaseInsulinCoefficients}
    (hm : x.morning = y.morning) (ha : x.afternoon = y.afternoon)
    (he : x.evening = y.evening) (hn : x.night = y.night) : x = y := by
  cases x; cases y; simp_all

/-- A value is always between `0.8` and `1.2` times itself (in the
sign-free sense). -/
lemma between_self (c : ℚ) :
    min (8/10 * c) (12/10 * c) ≤ c ∧ c ≤ max (8/10 * c) (12/10 * c) := by
  rcases le_total 0 c with hc | hc
  · exact ⟨(min_le_left _ _).trans (by nlinarith), le_trans (by nlinarith) (le_max_right _ _)⟩
  · exact ⟨(min_le_right _ _).trans (by nlinarith), le_trans (by nlinarith) (le_max_left _ _)⟩

/-- `adjustCoefficient` moves a coefficient by a factor between `0.8` and
`1.2` (or not at all), whatever the average and target. -/
lemma adjustCoefficient_between (avg t c : ℚ) :
    min (8/10 * c) (12/10 * c) ≤ adjustCoefficient avg t c ∧
      adjustCoefficient avg t c ≤ max (8/10 * c) (12/10 * c) := by
  unfold adjustCoefficient
  split_ifs with h
  · exact between_self c
  · have hf1 : (8/10 : ℚ) ≤ max (8/10) (min (12/10) (t / avg)) := le_max_left _ _
    have hf2 : max (8/10 : ℚ) (min (12/10) (t / avg)) ≤ 12/10 :=
      max_le (by norm_num) (min_le_left _ _)
    constructor
    · rcases le_total 0 c with hc | hc
      · exact (min_le_left _ _).trans (by nlinarith)
      · exact (min_le_right _ _).trans (by nlinarith)
    · rcases le_total 0 c with hc | hc
      · exact le_trans (by nlinarith) (le_max_right _ _)
      · exact le_trans (by nlinarith) (le_max_left _ _)

/-- C5 (amended): for positive readings and a positive target, every
quadrant coefficient produced by one tuner invocation stays between
`0.8` and `1.2` times the corresponding input coefficient; with at
least 5 readings, a bucket with at least 3 readings whose average is at
least `1.0` from target gets `old * clamp(target/avg, 0.8, 1.2)`, a
bucket whose average is within `1.0` of target keeps its coefficient,
and a bucket with fewer than 3 readings keeps its coefficient; with
fewer than 5 readings everything is unchanged. -/
theorem adjustInsulinCoefficients_bounded_change
    (readings : List BloodSugarReading) (targetBG : ℚ) (c : BaseInsulinCoefficients)
    (hpos : ∀ r ∈ readings, 0 < r.value) (ht : 0 < targetBG) (q : Quadrant) :
    min (8/10 * quadrantCoeff q c) (12/10 * quadrantCoeff q c) ≤
        quadrantCoeff q (AdjustInsulinCoefficients readings targetBG c) ∧
      quadrantCoeff q (AdjustInsulinCoefficients readings targetBG c) ≤
        max (8/10 * quadrantCoeff q c) (12/10 * quadrantCoeff q c) ∧
      (readings.length < 5 →
        quadrantCoeff q (AdjustInsulinCoefficients readings targetBG c) = quadrantCoeff q c) ∧
      (5 ≤ readings.length → (quadrantValues q readings).length < 3 →
        quadrantCoeff q (AdjustInsulinCoefficients readings targetBG c) = quadrantCoeff q c) ∧
      (5 ≤ readings.length → 3 ≤ (quadrantValues q readings).length →
        |calculateAverage (quadrantValues q readings) - targetBG| < 1 →
        quadrantCoeff q (AdjustInsulinCoefficients readings targetBG c) = quadrantCoeff q c) ∧
      (5 ≤ readings.length → 3 ≤ (quadrantValues q readings).length →
        1 ≤ |calculateAverage (quadrantValues q readings) - targetBG| →
        quadrantCoeff q (AdjustInsulinCoefficients readings targetBG c) =
          quadrantCoeff q c *
            max (8/10)
              (min (12/10) (targetBG / calculateAverage (quadrantValues q readings)))) := by
  by_cases h5 : readings.length < 5
  · rw [adjust_of_length_lt_five targetBG c h5]
    refine ⟨(between_self _).1, (between_self _).2, fun _ => rfl, fun _ _ => rfl,
      fun _ _ _ => rfl, fun hge _ _ => absurd hge (by omega)⟩
  · rw [adjust_quadrantCoeff readings targetBG c h5 q]
    by_cases h3 : 3 ≤ (quadrantValues q readings).length
    · rw [if_pos h3]
      refine ⟨(adjustCoefficient_between _ _ _).1, (adjustCoefficient_between _ _ _).2,
        fun hlt => absurd hlt h5, fun _ hlt => absurd h3 (by omega), ?_, ?_⟩
      · intro _ _ hin
        unfold adjustCoefficient
        rw [if_pos hin]
      · intro _ _ hout
        unfold adjustCoefficient
        rw [if_neg (not_lt.mpr hout)]
    · rw [if_neg h3]
      exact ⟨(between_self _).1, (between_self _).2, fun _ => rfl, fun _ _ => rfl,
        fun _ hge _ => absurd hge h3, fun _ hge _ => absurd hge h3⟩

/-- Witness for `adjustInsulinCoefficients_bounded_change`: five morning
readings of value 10 against target 5 scale the morning coefficient by
the clamped factor. -/
theorem adjustInsulinCoefficients_bounded_change_witness :
    quadrantCoeff .morning
        (AdjustInsulinCoefficients
          [⟨10, 7⟩, ⟨10, 7⟩, ⟨10, 7⟩, ⟨10, 7⟩, ⟨10, 7⟩] 5 ⟨1, 1, 1, 1⟩) =
      quadrantCoeff .morning ⟨1, 1, 1, 1⟩ *
        max (8/10)
          (min (12/10)
            (5 / calculateAverage
              (quadrantValues .morning [⟨10, 7⟩, ⟨10, 7⟩, ⟨10, 7⟩, ⟨10, 7⟩, ⟨10, 7⟩]))) :=
  (adjustInsulinCoefficients_bounded_change
      [⟨10, 7⟩, ⟨10, 7⟩, ⟨10, 7⟩, ⟨10, 7⟩, ⟨10, 7⟩] 5 ⟨1, 1, 1, 1⟩
      (by norm_num) (by norm_num) .morning).2.2.2.2.2
    (by norm_num)
    (by norm_num [quadrantValues, readingsInBucket, quadrantHourPred, isMorningHour])
    (by norm_num [quadrantValues, readingsInBucket, quadrantHourPred, isMorningHour,
      calculateAverage, abs_of_nonneg])

/-- Counterexample to C5 as stated: five morning readings of value 5.5
against target 5 form a qualifying (≥ 3 readings) bucket, yet the
morning coefficient stays `1` instead of the claimed
`1 * clamp(5 / 5.5, 0.8, 1.2) = 10/11`. -/
theorem adjustInsulinCoefficients_deadZone_counterexample :
    3 ≤ (quadrantValues .morning
        [⟨11/2, 7⟩, ⟨11/2, 7⟩, ⟨11/2, 7⟩, ⟨11/2, 7⟩, ⟨11/2, 7⟩]).length ∧
      (∀ r ∈ ([⟨11/2, 7⟩, ⟨11/2, 7⟩, ⟨11/2, 7⟩, ⟨11/2, 7⟩, ⟨11/2, 7⟩] :
          List BloodSugarReading), 0 < r.value) ∧
      quadrantCoeff .morning
          (AdjustInsulinCoefficients
            [⟨11/2, 7⟩, ⟨11/2, 7⟩, ⟨11/2, 7⟩, ⟨11/2, 7⟩, ⟨11/2, 7⟩] 5 ⟨1, 1, 1, 1⟩) = 1 ∧
      quadrantCoeff .morning ⟨1, 1, 1, 1⟩ *
          max (8/10)
            (min (12/10)
              (5 / calculateAverage
                (quadrantValues .morning
                  [⟨11/2, 7⟩, ⟨11/2, 7⟩, ⟨11/2, 7⟩, ⟨11/2, 7⟩, ⟨11/2, 7⟩]))) = 10/11 ∧
      (1 : ℚ) ≠ 10/11 := by
  refine ⟨?_, ?_, ?_, ?_, by norm_num⟩
  · norm_num [quadrantValues, readingsInBucket, quadrantHourPred, isMorningHour]
  · norm_num
  · norm_num [AdjustInsulinCoefficients, quadrantCoeff, readingsInBucket, isMorningHour,
      isAfternoonHour, isEveningHour, isNightHour, calculateAverage, adjustCoefficient,
      abs_of_nonneg]
  · norm_num [quadrantValues, readingsInBucket, quadrantHourPred, isMorningHour,
      calculateAverage, quadrantCoeff]

/-- C6: when every quadrant bucket with at least 3 readings has its
average within `1.0` of the target, one tuner invocation returns its
input exactly, and a second invocation on the same readings changes
nothing further. -/
theorem adjustInsulinCoefficients_idempotent_within_target
    (readings : List BloodSugarReading) (targetBG : ℚ) (c : BaseInsulinCoefficients)
    (hm : 3 ≤ (quadrantValues .morning readings).length →
      |calculateAverage (quadrantValues .morning readings) - targetBG| < 1)
    (ha : 3 ≤ (quadrantValues .afternoon readings).length →
      |calculateAverage (quadrantValues .afternoon readings) - targetBG| < 1)
    (he : 3 ≤ (quadrantValues .evening readings).length →
      |calculateAverage (quadrantValues .evening readings) - targetBG| < 1)
    (hn : 3 ≤ (quadrantValues .night readings).length →
      |calculateAverage (quadrantValues .night readings) - targetBG| < 1) :
    AdjustInsulinCoefficients readings targetBG c = c ∧
      AdjustInsulinCoefficients readings targetBG
          (AdjustInsulinCoefficients readings targetBG c) =
        AdjustInsulinCoefficients readings targetBG c := by
  have hfix : AdjustInsulinCoefficients readings targetBG c = c := by
    by_cases h5 : readings.length < 5
    · exact adjust_of_length_lt_five targetBG c h5
    · have hq : ∀ q : Quadrant,
          (3 ≤ (quadrantValues q readings).length →
            |calculateAverage (quadrantValues q readings) - targetBG| < 1) →
          quadrantCoeff q (AdjustInsulinCoefficients readings targetBG c) =
            quadrantCoeff q c := by
        intro q hq1
        rw [adjust_quadrantCoeff readings targetBG c h5 q]
        split_ifs with h3
        · unfold adjustCoefficient
          rw [if_pos (hq1 h3)]
        · rfl
      exact baseCoefficients_ext (hq .morning hm) (hq .afternoon ha) (hq .evening he)
        (hq .night hn)
  refine ⟨hfix, ?_⟩
  rw [hfix]
  exact hfix

/-- Witness for `adjustInsulinCoefficients_idempotent_within_target`:
five on-target morning readings leave the coefficients untouched twice
over. -/
theorem adjustInsulinCoefficients_idempotent_within_target_witness :
    AdjustInsulinCoefficients [⟨5, 7⟩, ⟨5, 7⟩, ⟨5, 7⟩, ⟨5, 7⟩, ⟨5, 7⟩] 5 ⟨1, 1, 1, 1⟩ =
        ⟨1, 1, 1, 1⟩ ∧
      AdjustInsulinCoefficients [⟨5, 7⟩, ⟨5, 7⟩, ⟨5, 7⟩, ⟨5, 7⟩, ⟨5, 7⟩] 5
          (AdjustInsulinCoefficients [⟨5, 7⟩, ⟨5, 7⟩, ⟨5, 7⟩, ⟨5, 7⟩, ⟨5, 7⟩] 5
            ⟨1, 1, 1, 1⟩) =
        AdjustInsulinCoefficients [⟨5, 7⟩, ⟨5, 7⟩, ⟨5, 7⟩, ⟨5, 7⟩, ⟨5, 7⟩] 5 ⟨1, 1, 1, 1⟩ :=
  adjustInsulinCoefficients_idempotent_within_target
    [⟨5, 7⟩, ⟨5, 7⟩, ⟨5, 7⟩, ⟨5, 7⟩, ⟨5, 7⟩] 5 ⟨1, 1, 1, 1⟩
    (by norm_num [quadrantValues, readingsInBucket, quadrantHourPred, isMorningHour,
      calculateAverage])
    (by norm_num [quadrantValues, readingsInBucket, quadrantHourPred, isAfternoonHour])
    (by norm_num [quadrantValues, readingsInBucket, quadrantHourPred, isEveningHour])
    (by norm_num [quadrantValues, readingsInBucket, quadrantHourPred, isNightHour,
      isMorningHour, isAfternoonHour, isEveningHour])

/-- C8: the dose-path resolver scans the period list in order and
returns the coefficient of the first period whose declared range
contains the hour; with no matching period it returns exactly `1.0`;
and hour 7 against the four-quadrant set
`{0h/6h/1.0, 6h/6h/1.2, 12h/6h/1.0, 18h/6h/1.1}` resolves to `1.2`. -/
theorem analyzeFoodPeriodCoefficient_spec :
    (∀ (periods : List InsulinPeriod) (hour : Int),
        (∀ p ∈ periods, ¬ periodMatchesHour p hour) →
        analyzeFoodPeriodCoefficient periods hour = 1) ∧
      (∀ (pre post : List InsulinPeriod) (p : InsulinPeriod) (hour : Int),
        (∀ q ∈ pre, ¬ periodMatchesHour q hour) → periodMatchesHour p hour →
        analyzeFoodPeriodCoefficient (pre ++ p :: post) hour = p.coefficient) ∧
      analyzeFoodPeriodCoefficient
        [⟨"00:00", 1, 6⟩, ⟨"06:00", 12/10, 6⟩, ⟨"12:00", 1, 6⟩, ⟨"18:00", 11/10, 6⟩] 7 =
        12/10 := by
  refine ⟨?_, ?_, ?_⟩
  · intro periods hour hnone
    induction periods with
    | nil => rfl
    | cons p rest ih =>
        have hp : ¬ periodMatchesHour p hour := hnone p (by simp)
        unfold periodMatchesHour at hp
        simp only [analyzeFoodPeriodCoefficient, if_neg hp]
        exact ih fun q hq => hnone q (by simp [hq])
  · intro pre post p hour hpre hp
    induction pre with
    | nil =>
        unfold periodMatchesHour at hp
        simp only [List.nil_append, analyzeFoodPeriodCoefficient, if_pos hp]
    | cons q rest ih =>
        have hq : ¬ periodMatchesHour q hour := hpre q (by simp)
        unfold periodMatchesHour at hq
        simp only [List.cons_append, analyzeFoodPeriodCoefficient, if_neg hq]
        exact ih fun r hr => hpre r (by simp [hr])
  · norm_num [analyzeFoodPeriodCoefficient, parseStartHour_00, parseStartHour_06,
      parseStartHour_12, parseStartHour_18, goInt_6]

/-- Witness for `analyzeFoodPeriodCoefficient_spec`: the fallback at a
non-covered hour, a first match after a non-matching prefix, and the
spec's hour-7 example. -/
theorem analyzeFoodPeriodCoefficient_spec_witness :
    analyzeFoodPeriodCoefficient [⟨"00:00", 3/2, 6⟩] 9 = 1 ∧
      analyzeFoodPeriodCoefficient
          ([⟨"00:00", 1, 6⟩] ++
            (⟨"06:00", 12/10, 6⟩ : InsulinPeriod) ::
              [⟨"12:00", 1, 6⟩, ⟨"18:00", 11/10, 6⟩]) 7 =
        (⟨"06:00", 12/10, 6⟩ : InsulinPeriod).coefficient ∧
      analyzeFoodPeriodCoefficient
        [⟨"00:00", 1, 6⟩, ⟨"06:00", 12/10, 6⟩, ⟨"12:00", 1, 6⟩, ⟨"18:00", 11/10, 6⟩] 7 =
        12/10 := by
  refine ⟨analyzeFoodPeriodCoefficient_spec.1 _ 9 ?_,
    analyzeFoodPeriodCoefficient_spec.2.1 _ _ _ 7 ?_ ?_,
    analyzeFoodPeriodCoefficient_spec.2.2⟩
  · intro p hp
    simp only [List.mem_singleton] at hp
    subst hp
    norm_num [periodMatchesHour, parseStartHour_00, goInt_6]
  · intro q hq
    simp only [List.mem_singleton] at hq
    subst hq
    norm_num [periodMatchesHour, parseStartHour_00, goInt_6]
  · norm_num [periodMatchesHour, parseStartHour_06, goInt_6]

/-- Counterexample to C1 as stated: `CalculateCorrectionInsulin` applies
no zero-floor, so glucose below target yields a negative correction
(`currentBG = 4`, `targetBG = 6`, `sensitivity = 2` gives `-1`, not
`max 0 (-1) = 0`). -/
theorem calculateCorrectionInsulin_negative_counterexample :
    CalculateCorrectionInsulin 4 6 2 = -1 ∧
      CalculateCorrectionInsulin 4 6 2 ≠ max 0 ((4 - 6) / 2) ∧
      CalculateCorrectionInsulin 4 6 2 < 0 := by
  norm_num [CalculateCorrectionInsulin]

/-- C1 (amended): the request-path correction computed inline by
`AnalyzeFood` — unlike the standalone `CalculateCorrectionInsulin`,
which returns the unclamped quotient — equals
`max 0 ((currentBG - targetBG) / sensitivity)` whenever the stored
target and first sensitivity are positive: it is exactly `0` when
`currentBG ≤ targetBG` and never negative. -/
theorem analyzeFoodCorrection_clamped
    (settings : Settings) (bg : ℚ) (s0 : SensitivityPeriod)
    (rest : List SensitivityPeriod)
    (hsp : settings.sensitivityPeriods = s0 :: rest)
    (ht : 0 < settings.targetMin) (hs : 0 < s0.sensitivity) :
    analyzeFoodCorrection (some bg) settings =
        some (max 0 ((bg - settings.targetMin) / s0.sensitivity)) ∧
      (bg ≤ settings.targetMin → analyzeFoodCorrection (some bg) settings = some 0) ∧
      0 ≤ max 0 ((bg - settings.targetMin) / s0.sensitivity) := by
  have hmain : analyzeFoodCorrection (some bg) settings =
      some (max 0 ((bg - settings.targetMin) / s0.sensitivity)) := by
    unfold analyzeFoodCorrection
    rw [hsp]
    simp only [if_pos ht, if_pos hs]
    by_cases hd : 0 < bg - settings.targetMin
    · rw [if_pos hd]
      congr 1
      exact (max_eq_right (le_of_lt (div_pos hd hs))).symm
    · rw [if_neg hd]
      congr 1
      have hq : (bg - settings.targetMin) / s0.sensitivity ≤ 0 :=
        div_nonpos_iff.mpr (Or.inr ⟨by linarith [not_lt.mp hd], hs.le⟩)
      exact (max_eq_left hq).symm
  refine ⟨hmain, ?_, le_max_left _ _⟩
  intro hle
  rw [hmain]
  have hq : (bg - settings.targetMin) / s0.sensitivity ≤ 0 :=
    div_nonpos_iff.mpr (Or.inr ⟨by linarith, hs.le⟩)
  rw [max_eq_left hq]

/-- Witness for `analyzeFoodCorrection_clamped`: a below-target reading
(`bg = 4`, target `6`, sensitivity `2`) yields a zero (not negative)
correction on the request path. -/
theorem analyzeFoodCorrection_clamped_witness :
    analyzeFoodCorrection (some 4) ⟨6, 8, 4, [], [⟨"00:00", 2, 24⟩], []⟩ =
        some (max 0 ((4 - (⟨6, 8, 4, [], [⟨"00:00", 2, 24⟩], []⟩ : Settings).targetMin) /
          (⟨"00:00", 2, 24⟩ : SensitivityPeriod).sensitivity)) ∧
      ((4 : ℚ) ≤ (⟨6, 8, 4, [], [⟨"00:00", 2, 24⟩], []⟩ : Settings).targetMin →
        analyzeFoodCorrection (some 4) ⟨6, 8, 4, [], [⟨"00:00", 2, 24⟩], []⟩ = some 0) ∧
      0 ≤ max 0 ((4 - (⟨6, 8, 4, [], [⟨"00:00", 2, 24⟩], []⟩ : Settings).targetMin) /
        (⟨"00:00", 2, 24⟩ : SensitivityPeriod).sensitivity) :=
  analyzeFoodCorrection_clamped ⟨6, 8, 4, [], [⟨"00:00", 2, 24⟩], []⟩ 4
    ⟨"00:00", 2, 24⟩ [] rfl (by norm_num) (by norm_num)

/-- C2 (amended): in the dose-computation path only the dosing
coefficient is hour-resolved; the carb ratio and the sensitivity are
taken from the first element of their period sets regardless of hour, so
the dose is invariant under arbitrary replacement of every element but
the first of the carb-ratio and sensitivity sets. -/
theorem analyzeFoodDose_uses_first_elements
    (carbs : ℚ) (hour : Int) (last : Option ℚ)
    (tmin tmax iob : ℚ) (ip : List InsulinPeriod)
    (r0 : CarbRatioPeriod) (rt rt' : List CarbRatioPeriod)
    (s0 : SensitivityPeriod) (st st' : List SensitivityPeriod) :
    analyzeFoodDose carbs hour ⟨tmin, tmax, iob, ip, s0 :: st, r0 :: rt⟩ last =
        analyzeFoodDose carbs hour ⟨tmin, tmax, iob, ip, s0 :: st', r0 :: rt'⟩ last ∧
      (analyzeFoodDose carbs hour ⟨tmin, tmax, iob, ip, s0 :: st, r0 :: rt⟩ last).map
          DoseResult.mealInsulin =
        some (carbs / r0.ratio * analyzeFoodPeriodCoefficient ip hour) ∧
      (analyzeFoodDose carbs hour ⟨tmin, tmax, iob, ip, s0 :: st, r0 :: rt⟩ last).map
          DoseResult.periodCoefficient =
        some (analyzeFoodPeriodCoefficient ip hour) := by
  refine ⟨rfl, ?_, ?_⟩ <;>
    cases last with
    | none => rfl
    | some v =>
        simp only [analyzeFoodDose, analyzeFoodCorrection]
        split_ifs <;> rfl

/-- Counterexample to C2 as stated: at hour 15 the hour-resolved carb
ratio is `20` and the hour-resolved sensitivity is `4`, but the dose is
computed from the first elements (`10` and `2`): meal insulin is `15/2`,
not the claimed `15/4`, and correction insulin is `2`, not the claimed
`1`. -/
theorem analyzeFoodDose_fixed_index_counterexample :
    analyzeFoodDose 50 15 c2Settings (some 9) =
        some ⟨15/2, 2, 19/2, 3/2⟩ ∧
      specResolveCarbRatio c2Settings.carbRatioPeriods 15 = 20 ∧
      specResolveSensitivity c2Settings.sensitivityPeriods 15 = 4 ∧
      50 / specResolveCarbRatio c2Settings.carbRatioPeriods 15 *
          analyzeFoodPeriodCoefficient c2Settings.insulinPeriods 15 = 15/4 ∧
      (9 - c2Settings.targetMin) /
          specResolveSensitivity c2Settings.sensitivityPeriods 15 = 1 ∧
      (15/2 : ℚ) ≠ 15/4 ∧ (2 : ℚ) ≠ 1 := by
  refine ⟨?_, ?_, ?_, ?_, ?_, by norm_num, by norm_num⟩ <;>
    norm_num [analyzeFoodDose, analyzeFoodCorrection, analyzeFoodPeriodCoefficient,
      specResolveCarbRatio, specResolveSensitivity, c2Settings,
      parseStartHour_00, parseStartHour_12, goInt_12]

/-- C3 (amended): when the tuner returns the stored quadrant
coefficients unchanged AND the stored dosing-coefficient period list
survives the quadrant round trip (as the canonical four 6-hour periods
do), `SaveBloodSugar` leaves the stored set unchanged and reports
`coefficientsAdjusted = false`; without the round-trip condition the
handler may rewrite the stored set and report `true` even though the
tuner was a no-op. -/
theorem saveBloodSugarAdjust_noop
    (recentReadings : List BloodSugarReading) (settings : Settings)
    (htuner : AdjustInsulinCoefficients recentReadings settings.targetMin
        (InsulinPeriodsToBaseCoefficients settings.insulinPeriods) =
      InsulinPeriodsToBaseCoefficients settings.insulinPeriods)
    (hround : areInsulinPeriodsEqual settings.insulinPeriods
        (ConvertToInsulinPeriods
          (InsulinPeriodsToBaseCoefficients settings.insulinPeriods)) = true) :
    saveBloodSugarAdjust recentReadings settings = (settings.insulinPeriods, false) := by
  simp only [saveBloodSugarAdjust]
  split_ifs with hgate heq
  · rfl
  · rw [htuner] at heq
    exact absurd hround heq
  · rfl

/-- Witness for `saveBloodSugarAdjust_noop`: the canonical four 6-hour
periods with on-target readings are left untouched with the flag
down. -/
theorem saveBloodSugarAdjust_noop_witness :
    saveBloodSugarAdjust [⟨5, 7⟩, ⟨5, 7⟩, ⟨5, 7⟩, ⟨5, 7⟩, ⟨5, 7⟩]
        ⟨5, 8, 4,
          [⟨"00:00", 1, 6⟩, ⟨"06:00", 1, 6⟩, ⟨"12:00", 1, 6⟩, ⟨"18:00", 1, 6⟩],
          [⟨"00:00", 2, 24⟩], [⟨"00:00", 10, 24⟩]⟩ =
      ((⟨5, 8, 4,
          [⟨"00:00", 1, 6⟩, ⟨"06:00", 1, 6⟩, ⟨"12:00", 1, 6⟩, ⟨"18:00", 1, 6⟩],
          [⟨"00:00", 2, 24⟩], [⟨"00:00", 10, 24⟩]⟩ : Settings).insulinPeriods, false) :=
  saveBloodSugarAdjust_noop [⟨5, 7⟩, ⟨5, 7⟩, ⟨5, 7⟩, ⟨5, 7⟩, ⟨5, 7⟩]
    ⟨5, 8, 4,
      [⟨"00:00", 1, 6⟩, ⟨"06:00", 1, 6⟩, ⟨"12:00", 1, 6⟩, ⟨"18:00", 1, 6⟩],
      [⟨"00:00", 2, 24⟩], [⟨"00:00", 10, 24⟩]⟩
    (by norm_num [InsulinPeriodsToBaseCoefficients, AdjustInsulinCoefficients,
      readingsInBucket, isMorningHour, isAfternoonHour, isEveningHour, isNightHour,
      calculateAverage, adjustCoefficient, abs_of_nonneg,
      parseStartHour_00, parseStartHour_06, parseStartHour_12, parseStartHour_18, goInt_6])
    (by simp [areInsulinPeriodsEqual, InsulinPeriodsToBaseCoefficients,
      ConvertToInsulinPeriods, parseStartHour_00, parseStartHour_06, parseStartHour_12,
      parseStartHour_18, goInt_6])

/-- Counterexample to C3 as stated: the tuner returns its input
quadrant coefficients unchanged, yet `SaveBloodSugar` replaces the
stored three-period set with the four-period quadrant conversion and
reports `coefficientsAdjusted = true`. -/
theorem saveBloodSugarAdjust_rewrite_counterexample :
    AdjustInsulinCoefficients [⟨5, 7⟩, ⟨5, 7⟩, ⟨5, 7⟩, ⟨5, 7⟩, ⟨5, 7⟩]
        c3Settings.targetMin
        (InsulinPeriodsToBaseCoefficients c3Settings.insulinPeriods) =
      InsulinPeriodsToBaseCoefficients c3Settings.insulinPeriods ∧
      (saveBloodSugarAdjust [⟨5, 7⟩, ⟨5, 7⟩, ⟨5, 7⟩, ⟨5, 7⟩, ⟨5, 7⟩] c3Settings).2 = true ∧
      (saveBloodSugarAdjust [⟨5, 7⟩, ⟨5, 7⟩, ⟨5, 7⟩, ⟨5, 7⟩, ⟨5, 7⟩] c3Settings).1 ≠
        c3Settings.insulinPeriods := by
  have htuner : AdjustInsulinCoefficients [⟨5, 7⟩, ⟨5, 7⟩, ⟨5, 7⟩, ⟨5, 7⟩, ⟨5, 7⟩]
      c3Settings.targetMin
      (InsulinPeriodsToBaseCoefficients c3Settings.insulinPeriods) =
      InsulinPeriodsToBaseCoefficients c3Settings.insulinPeriods := by
    norm_num [c3Settings, InsulinPeriodsToBaseCoefficients, AdjustInsulinCoefficients,
      readingsInBucket, isMorningHour, isAfternoonHour, isEveningHour, isNightHour,
      calculateAverage, adjustCoefficient, abs_of_nonneg,
      parseStartHour_00, parseStartHour_08, parseStartHour_16, goInt_8]
  refine ⟨htuner, ?_, ?_⟩ <;>
    · simp only [saveBloodSugarAdjust, htuner]
      norm_num [c3Settings, InsulinPeriodsToBaseCoefficients, ConvertToInsulinPeriods,
        areInsulinPeriodsEqual, parseStartHour_00, parseStartHour_08, parseStartHour_16,
        goInt_8]
